import Mathlib

/-
Shallow embedding of the NeuroGenX chat backend (src/render-backend/server.js,
second snapshot: the variant with MongoDB persistence, JWT auth, socket.io
presence and the Gemini-backed bot).  Pure functions of the source become Lean
functions; the mutable stores (the Message collection, the emitted socket
events, the connectedUsers map) become explicit state threaded through the
handlers.  Statuses are Nat, timestamps are Nat milliseconds.
-/

namespace NeuroGenX

/-- Outcome of one fetch call inside callApiWithRetry (server.js line 218):
either a completed HTTP response carrying its status code and parsed body, or a
network-level failure (the promise rejects and the catch branch runs). -/
inductive FetchOutcome (α : Type) where
  | resp (status : Nat) (body : α)
  | netError
deriving DecidableEq

/-- How a call to callApiWithRetry ends, seen by its caller:
ok: a response with response.ok true is returned (line 219-220);
clientError: a non-retryable non-ok response is returned as-is (line 229);
netErrorThrown: the network error of the last attempt is re-thrown (line 239);
allFailedThrown: the loop exhausts its budget on retryable statuses and the
final "All retry attempts failed." error is thrown (line 243). -/
inductive RetryOutcome (α : Type) where
  | ok (status : Nat) (body : α)
  | clientError (status : Nat) (body : α)
  | netErrorThrown
  | allFailedThrown
deriving DecidableEq

/-- Observable trace of one callApiWithRetry run: its outcome, how many times
fetch was invoked, and the backoff delays awaited (in order, milliseconds). -/
structure RetryTrace (α : Type) where
  outcome : RetryOutcome α
  calls : Nat
  delays : List Nat
deriving DecidableEq

/-- response.ok of the fetch API: status in the inclusive range 200-299. -/
def respOk (status : Nat) : Bool :=
  decide (200 ≤ status ∧ status ≤ 299)

/-- The retry condition of server.js line 223: status 429 or status >= 500. -/
def retryableStatus (status : Nat) : Bool :=
  decide (status = 429 ∨ 500 ≤ status)

/-- Default attempt budget of callApiWithRetry (server.js line 215). -/
def defaultRetries : Nat := 5

/-- Default initial backoff delay in ms of callApiWithRetry (line 215). -/
def defaultInitialDelay : Nat := 1000

/-- The loop body of callApiWithRetry (server.js lines 216-242).  The source
iterates i from 0 while i < retries; here i is the same attempt index and fuel
counts the remaining iterations, fuel = retries - i, so the loop guard
i < retries becomes fuel > 0 and the last-attempt test of the catch branch
i < retries - 1 becomes fuel > 1.  Each fetch invocation adds 1 to calls; each
awaited backoff of initialDelay * 2 ^ i ms is recorded in delays. -/
def callApiWithRetryGo {α : Type} (fetch : Nat → FetchOutcome α)
    (initialDelay : Nat) : Nat → Nat → RetryTrace α
  | _, 0 => ⟨.allFailedThrown, 0, []⟩
  | i, fuel + 1 =>
    match fetch i with
    | .resp status body =>
      if respOk status then
        ⟨.ok status body, 1, []⟩
      else if retryableStatus status then
        let rest := callApiWithRetryGo fetch initialDelay (i + 1) fuel
        ⟨rest.outcome, rest.calls + 1, initialDelay * 2 ^ i :: rest.delays⟩
      else
        ⟨.clientError status body, 1, []⟩
    | .netError =>
      if 0 < fuel then
        let rest := callApiWithRetryGo fetch initialDelay (i + 1) fuel
        ⟨rest.outcome, rest.calls + 1, initialDelay * 2 ^ i :: rest.delays⟩
      else
        ⟨.netErrorThrown, 1, []⟩

/-- callApiWithRetry (server.js lines 215-244): run the retry loop from
attempt index 0 with a budget of retries iterations. -/
def callApiWithRetry {α : Type} (fetch : Nat → FetchOutcome α)
    (retries : Nat) (initialDelay : Nat) : RetryTrace α :=
  callApiWithRetryGo fetch initialDelay 0 retries

/-- One element of the parts array of a Gemini candidate content; the text
field may be absent. -/
structure GeminiPart where
  text : Option String
deriving DecidableEq

/-- The content object of a Gemini candidate. -/
structure GeminiContent where
  parts : List GeminiPart
deriving DecidableEq

/-- One element of the candidates array; content may be absent. -/
structure GeminiCandidate where
  content : Option GeminiContent
deriving DecidableEq

/-- The parsed JSON body returned by the Gemini endpoint; the candidates array
may be absent. -/
structure GeminiResult where
  candidates : Option (List GeminiCandidate)
deriving DecidableEq

/-- The optional-chaining extraction of server.js line 270:
result?.candidates?.[0]?.content?.parts?.[0]?.text.  Any absent link of the
chain yields none (undefined in the source). -/
def extractText (result : GeminiResult) : Option String :=
  match result.candidates with
  | none => none
  | some cs =>
    match cs.head? with
    | none => none
    | some c =>
      match c.content with
      | none => none
      | some content =>
        match content.parts.head? with
        | none => none
        | some part => part.text

/-- The static apology string returned by getBotResponse on any failure
(server.js line 281). -/
def apologyMessage : String :=
  "Sorry, I am having trouble processing that request right now. I will let you know once I\x27m up and running again."

/-- getBotResponse (server.js lines 246-283).  The concrete prompt only enters
the request payload; the behaviour of the external endpoint across attempts is
abstracted as fetch.  The wrapper result is examined exactly as the source
does: a non-ok returned response throws (line 264-267), an absent or empty
extracted text throws (line 272-275, the source tests !text which is true for
undefined and for the empty string), and every thrown error is caught and
mapped to the apology string (lines 279-282). -/
def getBotResponse (fetch : Nat → FetchOutcome GeminiResult) : String :=
  match (callApiWithRetry fetch defaultRetries defaultInitialDelay).outcome with
  | .ok _ body =>
    match extractText body with
    | none => apologyMessage
    | some t => if t = "" then apologyMessage else t
  | .clientError _ _ => apologyMessage
  | .netErrorThrown => apologyMessage
  | .allFailedThrown => apologyMessage

/-- A document of the Message collection (messageSchema, server.js lines
170-189): userId (an ObjectId, or null as the source passes for the bot),
name, message and the server-assigned date. -/
structure StoredMessage where
  userId : Option Nat
  name : String
  message : String
  date : Nat
deriving DecidableEq

/-- Payload of one new_message socket event (server.js lines 390-394 and
409-413): the persisted date is exposed under the key timestamp. -/
structure NewMessageEvent where
  name : String
  message : String
  timestamp : Nat
deriving DecidableEq

/-- The mutable backend state the submit and list handlers touch: the Message
collection in insertion order, and the stream of emitted new_message events. -/
structure ServerState where
  messages : List StoredMessage
  broadcasts : List NewMessageEvent
deriving DecidableEq

/-- The required-path validation mongoose runs on save against messageSchema
(server.js lines 170-187): userId is required (null and undefined fail the
required validator of an ObjectId path), and name and message are required
strings (for string paths the required validator also rejects the empty
string). -/
def messageSchemaValid (m : StoredMessage) : Bool :=
  m.userId.isSome && (m.name != "") && (m.message != "")

/-- document.save(): mongoose validates against the schema; on success the
document is appended to the collection, on validation failure the returned
promise rejects (modelled as none). -/
def saveMessage (st : ServerState) (m : StoredMessage) : Option ServerState :=
  if messageSchemaValid m then
    some { st with messages := st.messages ++ [m] }
  else
    none

/-- io.emit of a new_message event carrying name, message and the date of the
stored document under the key timestamp. -/
def emitNewMessage (st : ServerState) (m : StoredMessage) : ServerState :=
  { st with broadcasts := st.broadcasts ++ [⟨m.name, m.message, m.date⟩] }

/-- The decoded JWT payload attached as req.user by the auth middleware
(server.js lines 201-202, signed at line 369 as userId plus username). -/
structure AuthUser where
  userId : Option Nat
  username : String
deriving DecidableEq

/-- Character-level model of the JS String.prototype.toLowerCase used at
server.js line 397 (ASCII lowercasing of each character). -/
def jsToLower (s : String) : String := ⟨s.data.map Char.toLower⟩

/-- Whether the first list is an initial segment of the second. -/
def leadingMatch : List Char → List Char → Bool
  | [], _ => true
  | _ :: _, [] => false
  | a :: as, b :: bs => a = b && leadingMatch as bs

/-- Character-level model of the JS String.prototype.startsWith used at
server.js line 397. -/
def jsStartsWith (s pre : String) : Bool := leadingMatch pre.data s.data

/-- Body of the authenticated submit handler (server.js lines 378-424), after
the auth middleware has attached user.  Steps of the source, in order: reject
an empty message with 400 (line 382-384); build and save the user message
(lines 387-388); emit its new_message event (lines 390-394); if the lowercased
message starts with "@bot " (line 397), compute the bot reply from the message
with its first 5 characters dropped (line 399-400), build the bot document
with userId null and name Bot (lines 403-407) and save it, then emit its event
and answer 201; any rejected save is caught and answered 500 (lines 420-423)
with no rollback of the already-performed save and emit. -/
def submitBody (botFetch : String → Nat → FetchOutcome GeminiResult) (now : Nat)
    (user : AuthUser) (message : String) (st : ServerState) :
    Nat × ServerState :=
  if message = "" then
    (400, st)
  else
    let newMessage : StoredMessage := ⟨user.userId, user.username, message, now⟩
    match saveMessage st newMessage with
    | none => (500, st)
    | some st1 =>
      let st2 := emitNewMessage st1 newMessage
      if jsStartsWith (jsToLower message) "@bot " then
        let botResponse := getBotResponse (botFetch (message.drop 5))
        let botMessage : StoredMessage := ⟨none, "Bot", botResponse, now⟩
        match saveMessage st2 botMessage with
        | none => (500, st2)
        | some st3 => (201, emitNewMessage st3 botMessage)
      else
        (201, st2)

/-- The submit route with its auth middleware (server.js lines 194-208 and
378): a missing Authorization token answers 401, a token jwt.verify rejects
(invalid signature or expired, modelled by verify returning none) answers 401,
otherwise the decoded user is passed to the handler body. -/
def handleSubmit (verify : String → Option AuthUser)
    (botFetch : String → Nat → FetchOutcome GeminiResult) (now : Nat)
    (token : Option String) (message : String) (st : ServerState) :
    Nat × ServerState :=
  match token with
  | none => (401, st)
  | some t =>
    match verify t with
    | none => (401, st)
    | some user => submitBody botFetch now user message st

/-- A document of the User collection: username and the stored bcrypt hash
(server.js lines 153-165). -/
structure UserRec where
  username : String
  password : String
deriving DecidableEq

/-- Responses of the login handler, with the JSON body fields it sends:
badRequest is status 400 with body field error, done is status 200 with body
fields token and username. -/
inductive LoginResponse where
  | badRequest (error : String)
  | done (token : String) (username : String)
deriving DecidableEq

/-- The login handler (server.js lines 348-376): reject missing credentials
with 400; look the username up (User.findOne); answer the same
"Invalid username or password." 400 both when no user is found and when
bcrypt.compare (abstracted as compare password storedHash) fails; otherwise
sign a token (abstracted as sign) and answer it with the username. -/
def login (users : List UserRec) (compare : String → String → Bool)
    (sign : UserRec → String) (username password : String) : LoginResponse :=
  if username = "" ∨ password = "" then
    .badRequest "Username and password are required."
  else
    match users.find? (fun u => u.username == username) with
    | none => .badRequest "Invalid username or password."
    | some u =>
      if compare password u.password then
        .done (sign u) u.username
      else
        .badRequest "Invalid username or password."

/-- The newest-first order of the listing endpoint: Message.find().sort with
date descending (server.js line 428). -/
def newerFirst (a b : StoredMessage) : Prop := b.date ≤ a.date

instance : DecidableRel newerFirst := fun a b => Nat.decLe b.date a.date

instance : IsTotal StoredMessage newerFirst := ⟨fun a b => Nat.le_total b.date a.date⟩

instance : IsTrans StoredMessage newerFirst := ⟨fun _ _ _ h1 h2 => Nat.le_trans h2 h1⟩

/-- The GET /api/messages handler (server.js lines 426-439): fetch every
stored message, sort by date descending, and reshape each document to the
client-facing fields name, message and timestamp (the persisted date field
renamed). -/
def listMessages (st : ServerState) : List NewMessageEvent :=
  (List.insertionSort newerFirst st.messages).map fun m => ⟨m.name, m.message, m.date⟩

/-- The two socket.io events that mutate connectedUsers (server.js lines
298-314): join inserts socketId maps-to name, disconnect removes the entry of
the socket. -/
inductive PresenceEvent where
  | join (sid : Nat) (name : String)
  | disconnect (sid : Nat)
deriving DecidableEq

/-- Map.prototype.set on an association list with unique keys: update in place
keeping insertion order, or append a fresh entry. -/
def mapSet (k : Nat) (v : String) : List (Nat × String) → List (Nat × String)
  | [] => [(k, v)]
  | e :: rest => if e.1 = k then (k, v) :: rest else e :: mapSet k v rest

/-- Map.prototype.delete on an association list with unique keys. -/
def mapDelete (k : Nat) : List (Nat × String) → List (Nat × String)
  | [] => []
  | e :: rest => if e.1 = k then rest else e :: mapDelete k rest

/-- The mutation each presence event performs on connectedUsers (server.js
lines 302-313). -/
def applyPresenceEvent (m : List (Nat × String)) : PresenceEvent → List (Nat × String)
  | .join sid name => mapSet sid name m
  | .disconnect sid => mapDelete sid m

/-- broadcastUserList (server.js lines 293-296): emit the full current value
set of connectedUsers, in map order, to every connection. -/
def broadcastUserList (m : List (Nat × String)) : List String := m.map Prod.snd

/-- One presence event handled end to end: mutate the registry, then broadcast
the full updated value list (each handler calls broadcastUserList right after
its mutation). -/
def stepPresence (m : List (Nat × String)) (e : PresenceEvent) :
    List (Nat × String) × List String :=
  let updated := applyPresenceEvent m e
  (updated, broadcastUserList updated)

/-- A sequence of presence events run from a registry state, collecting the
final registry and the broadcast emitted after each mutation. -/
def runPresence : List (Nat × String) → List PresenceEvent →
    List (Nat × String) × List (List String)
  | m, [] => (m, [])
  | m, e :: es =>
    let step := stepPresence m e
    let rest := runPresence step.1 es
    (rest.1, step.2 :: rest.2)

/-- Endpoint fixture: retryable status 500 on the first two calls, success
200 from the third call on. -/
def fetchTwice500 : Nat → FetchOutcome Unit :=
  fun k => if k < 2 then .resp 500 () else .resp 200 ()

/-- Endpoint fixture: always status 404. -/
def fetch404 : Nat → FetchOutcome Unit := fun _ => .resp 404 ()

/-- Endpoint fixture: network failure on every attempt. -/
def fetchNetErr : Nat → FetchOutcome Unit := fun _ => .netError

/-- Bot endpoint fixture: network failure on every attempt, for any prompt. -/
def botFetchNetErr : String → Nat → FetchOutcome GeminiResult :=
  fun _ _ => .netError

/-- Token verifier fixture: exactly the token "tok" decodes, to the user
alice with userId 7. -/
def verifyTest : String → Option AuthUser :=
  fun t => if t = "tok" then some ⟨some 7, "alice"⟩ else none

/-- Token verifier fixture: every token is rejected (invalid or expired). -/
def verifyReject : String → Option AuthUser := fun _ => none

/-- Stored user fixture: alice with stored hash hashA. -/
def usersTest : List UserRec := [⟨"alice", "hashA"⟩]

/-- bcrypt.compare fixture: only the password secret matches the hash hashA. -/
def compareTest : String → String → Bool :=
  fun password hash => (password == "secret") && (hash == "hashA")

/-- Token signer fixture. -/
def signTest : UserRec → String := fun _ => "signed-token"

theorem respOk_false_of_retryable {s : Nat} (h : retryableStatus s = true) :
    respOk s = false := by
  simp only [retryableStatus, decide_eq_true_eq] at h
  simp only [respOk, decide_eq_false_iff_not]
  omega

theorem callApiWithRetryGo_success {α : Type} (fetch : Nat → FetchOutcome α)
    (D s : Nat) (b : α) (hs : respOk s = true) :
    ∀ n i fuel, n < fuel →
      (∀ k, i ≤ k → k < i + n →
        ∃ sk bk, fetch k = .resp sk bk ∧ retryableStatus sk = true) →
      fetch (i + n) = .resp s b →
      callApiWithRetryGo fetch D i fuel =
        ⟨.ok s b, n + 1, (List.range' i n).map fun k => D * 2 ^ k⟩ := by
  intro n
  induction n with
  | zero =>
    intro i fuel hfuel hfail hsucc
    obtain ⟨f, rfl⟩ : ∃ f, fuel = f + 1 := ⟨fuel - 1, by omega⟩
    rw [Nat.add_zero] at hsucc
    simp [callApiWithRetryGo, hsucc, hs]
  | succ n ih =>
    intro i fuel hfuel hfail hsucc
    obtain ⟨f, rfl⟩ : ∃ f, fuel = f + 1 := ⟨fuel - 1, by omega⟩
    obtain ⟨si, bi, hfi, hri⟩ := hfail i (Nat.le_refl i) (by omega)
    have hni : respOk si = false := respOk_false_of_retryable hri
    have hrec := ih (i + 1) f (by omega)
      (fun k hk1 hk2 => hfail k (by omega) (by omega))
      (by rw [show i + 1 + n = i + (n + 1) by omega]; exact hsucc)
    simp [callApiWithRetryGo, hfi, hni, hri, hrec, List.range'_succ]

theorem callApiWithRetryGo_netError {α : Type} (fetch : Nat → FetchOutcome α)
    (D : Nat) (hnet : ∀ k, fetch k = .netError) :
    ∀ n i, callApiWithRetryGo fetch D i (n + 1) =
      ⟨.netErrorThrown, n + 1, (List.range' i n).map fun k => D * 2 ^ k⟩ := by
  intro n
  induction n with
  | zero =>
    intro i
    simp [callApiWithRetryGo, hnet i]
  | succ n ih =>
    intro i
    rw [callApiWithRetryGo.eq_2, hnet i]
    simp [ih (i + 1), List.range'_succ]

/-- Claim C1: for every N with 1 <= N <= 5 (the default attempt budget), if
the endpoint answers a retryable status (429 or >= 500) on each of the first
N - 1 calls and a success status on call N, callApiWithRetry returns the
success response, performs exactly N calls, and the backoff delays are
initialDelay * 2 ^ i for the i-th failed attempt (0-based) and are
non-decreasing. -/
theorem C1_retry_succeeds_after_transient_failures {α : Type}
    (fetch : Nat → FetchOutcome α) (D N s : Nat) (b : α)
    (hN1 : 1 ≤ N) (hN5 : N ≤ 5)
    (hfail : ∀ k, k < N - 1 →
      ∃ sk bk, fetch k = .resp sk bk ∧ retryableStatus sk = true)
    (hsucc : fetch (N - 1) = .resp s b) (hok : respOk s = true) :
    callApiWithRetry fetch defaultRetries D =
      ⟨.ok s b, N, (List.range (N - 1)).map fun k => D * 2 ^ k⟩ ∧
    (callApiWithRetry fetch defaultRetries D).delays.Pairwise (· ≤ ·) := by
  have hmain := callApiWithRetryGo_success fetch D s b hok (N - 1) 0 defaultRetries
    (by simp only [defaultRetries]; omega)
    (fun k hk1 hk2 => hfail k (by omega))
    (by rw [Nat.zero_add]; exact hsucc)
  have hN : N - 1 + 1 = N := by omega
  have heq : callApiWithRetry fetch defaultRetries D =
      ⟨.ok s b, N, (List.range (N - 1)).map fun k => D * 2 ^ k⟩ := by
    show callApiWithRetryGo fetch D 0 defaultRetries = _
    rw [hmain, hN, ← List.range_eq_range']
  refine ⟨heq, ?_⟩
  rw [heq]
  show ((List.range (N - 1)).map fun k => D * 2 ^ k).Pairwise (· ≤ ·)
  rw [List.pairwise_map]
  exact (List.pairwise_lt_range (N - 1)).imp fun hlt =>
    Nat.mul_le_mul_left D (Nat.pow_le_pow_right (by omega) (Nat.le_of_lt hlt))

/-- Witness for C1: N = 3, D = 1000, endpoint failing with 500 twice and then
succeeding with 200; the wrapper returns the 200 response after exactly 3
calls with non-decreasing delays 1000 and 2000 ms. -/
theorem C1_retry_succeeds_after_transient_failures_witness :
    (1 ≤ 3 ∧ 3 ≤ 5 ∧
      (∀ k, k < 3 - 1 →
        ∃ sk bk, fetchTwice500 k = .resp sk bk ∧ retryableStatus sk = true) ∧
      fetchTwice500 (3 - 1) = .resp 200 () ∧ respOk 200 = true) ∧
    callApiWithRetry fetchTwice500 defaultRetries 1000 =
      ⟨.ok 200 (), 3, (List.range (3 - 1)).map fun k => 1000 * 2 ^ k⟩ ∧
    (callApiWithRetry fetchTwice500 defaultRetries 1000).delays.Pairwise (· ≤ ·) := by
  have hfail : ∀ k, k < 3 - 1 →
      ∃ sk bk, fetchTwice500 k = .resp sk bk ∧ retryableStatus sk = true := by
    intro k hk
    refine ⟨500, (), ?_, by decide⟩
    simp only [fetchTwice500]
    rw [if_pos (by omega)]
  exact ⟨⟨by omega, by omega, hfail, by decide, by decide⟩,
    C1_retry_succeeds_after_transient_failures fetchTwice500 1000 3 200 ()
      (by omega) (by omega) hfail (by decide) (by decide)⟩

/-- Claim C2: a completed response whose status is a non-success other than
429 and below 500 (such as 404) is returned to the caller after exactly one
call, with no retry and no delay. -/
theorem C2_client_error_returned_without_retry {α : Type}
    (fetch : Nat → FetchOutcome α) (R D s : Nat) (b : α)
    (hR : 1 ≤ R) (h0 : fetch 0 = .resp s b) (hnok : respOk s = false)
    (h429 : s ≠ 429) (h500 : s < 500) :
    callApiWithRetry fetch R D = ⟨.clientError s b, 1, []⟩ := by
  obtain ⟨r, rfl⟩ : ∃ r, R = r + 1 := ⟨R - 1, by omega⟩
  have hret : retryableStatus s = false := by
    simp only [retryableStatus, decide_eq_false_iff_not]
    omega
  show callApiWithRetryGo fetch D 0 (r + 1) = _
  simp [callApiWithRetryGo, h0, hnok, hret]

/-- Witness for C2: an endpoint that always answers 404; the wrapper performs
exactly one call, awaits no delay, and hands the 404 response back. -/
theorem C2_client_error_returned_without_retry_witness :
    (1 ≤ defaultRetries ∧ fetch404 0 = .resp 404 () ∧ respOk 404 = false ∧
      404 ≠ 429 ∧ 404 < 500) ∧
    callApiWithRetry fetch404 defaultRetries 1000 =
      ⟨.clientError 404 (), 1, []⟩ :=
  ⟨⟨by decide, by decide, by decide, by decide, by decide⟩,
    C2_client_error_returned_without_retry fetch404 defaultRetries 1000 404 ()
      (by decide) (by decide) (by decide) (by decide) (by decide)⟩

/-- Claim C9: against an endpoint raising a network-level failure on every
attempt, callApiWithRetry with budget R and initial delay D waits D * 2 ^ i
before attempt i + 1, performs exactly R calls, and then fails terminally by
re-raising to the caller. -/
theorem C9_network_failure_exhausts_budget {α : Type}
    (fetch : Nat → FetchOutcome α) (R D : Nat)
    (hR : 1 ≤ R) (hnet : ∀ k, fetch k = .netError) :
    callApiWithRetry fetch R D =
      ⟨.netErrorThrown, R, (List.range (R - 1)).map fun k => D * 2 ^ k⟩ := by
  obtain ⟨r, rfl⟩ : ∃ r, R = r + 1 := ⟨R - 1, by omega⟩
  show callApiWithRetryGo fetch D 0 (r + 1) = _
  rw [callApiWithRetryGo_netError fetch D hnet r 0, Nat.add_sub_cancel,
    ← List.range_eq_range']

/-- Witness for C9: budget 5 and initial delay 1000 against an endpoint that
always raises; exactly 5 calls, delays 1000, 2000, 4000, 8000 ms, terminal
network failure. -/
theorem C9_network_failure_exhausts_budget_witness :
    (1 ≤ defaultRetries ∧ ∀ k, fetchNetErr k = .netError) ∧
    callApiWithRetry fetchNetErr defaultRetries 1000 =
      ⟨.netErrorThrown, defaultRetries,
        (List.range (defaultRetries - 1)).map fun k => 1000 * 2 ^ k⟩ :=
  ⟨⟨by decide, fun _ => rfl⟩,
    C9_network_failure_exhausts_budget fetchNetErr defaultRetries 1000
      (by decide) (fun _ => rfl)⟩

/-- Claim C3: for every endpoint behaviour, getBotResponse returns a
non-empty displayable string and never propagates an exception: whenever the
upstream call fails every attempt, comes back with a non-ok status, or yields
a body whose nested text field is absent or empty, the result is the static
apology string; otherwise it is the non-empty extracted text. -/
theorem C3_bot_response_always_displayable
    (fetch : Nat → FetchOutcome GeminiResult) :
    getBotResponse fetch ≠ "" ∧
    (getBotResponse fetch = apologyMessage ∨
      ∃ s b t,
        (callApiWithRetry fetch defaultRetries defaultInitialDelay).outcome =
          .ok s b ∧
        extractText b = some t ∧ t ≠ "" ∧ getBotResponse fetch = t) := by
  have happ : apologyMessage ≠ "" := by decide
  cases ho : (callApiWithRetry fetch defaultRetries defaultInitialDelay).outcome with
  | ok s b =>
    cases ht : extractText b with
    | none =>
      exact ⟨by simp [getBotResponse, ho, ht, happ],
        Or.inl (by simp [getBotResponse, ho, ht])⟩
    | some t =>
      by_cases hte : t = ""
      · exact ⟨by simp [getBotResponse, ho, ht, hte, happ],
          Or.inl (by simp [getBotResponse, ho, ht, hte])⟩
      · exact ⟨by simp [getBotResponse, ho, ht, hte],
          Or.inr ⟨s, b, t, rfl, ht, hte, by simp [getBotResponse, ho, ht, hte]⟩⟩
  | clientError s b =>
    exact ⟨by simp [getBotResponse, ho, happ],
      Or.inl (by simp [getBotResponse, ho])⟩
  | netErrorThrown =>
    exact ⟨by simp [getBotResponse, ho, happ],
      Or.inl (by simp [getBotResponse, ho])⟩
  | allFailedThrown =>
    exact ⟨by simp [getBotResponse, ho, happ],
      Or.inl (by simp [getBotResponse, ho])⟩

theorem login_fail_eq (users : List UserRec) (compare : String → String → Bool)
    (sign : UserRec → String) (username password : String)
    (hu : username ≠ "") (hp : password ≠ "")
    (hfail : ∀ u ∈ users, u.username = username →
      compare password u.password = false) :
    login users compare sign username password =
      .badRequest "Invalid username or password." := by
  unfold login
  rw [if_neg (by simp [hu, hp])]
  cases hf : users.find? (fun u => u.username == username) with
  | none => rfl
  | some u =>
    have hmem := List.mem_of_find?_eq_some hf
    have hpred : u.username = username := by
      have := List.find?_some hf
      simpa using this
    simp [hfail u hmem hpred]

/-- Claim C5: for every stored user set and every login request that does not
match a registered username and password-hash pair, the handler answers the
same 400 response whether the username is unknown or the password is wrong:
the two failure causes are indistinguishable to the caller. -/
theorem C5_login_failures_indistinguishable (users : List UserRec)
    (compare : String → String → Bool) (sign : UserRec → String)
    (u1 p1 u2 p2 : String)
    (h1u : u1 ≠ "") (h1p : p1 ≠ "") (h2u : u2 ≠ "") (h2p : p2 ≠ "")
    (hf1 : ∀ u ∈ users, u.username = u1 → compare p1 u.password = false)
    (hf2 : ∀ u ∈ users, u.username = u2 → compare p2 u.password = false) :
    login users compare sign u1 p1 =
      .badRequest "Invalid username or password." ∧
    login users compare sign u1 p1 = login users compare sign u2 p2 := by
  have h1 := login_fail_eq users compare sign u1 p1 h1u h1p hf1
  have h2 := login_fail_eq users compare sign u2 p2 h2u h2p hf2
  exact ⟨h1, h1.trans h2.symm⟩

/-- Witness for C5: with alice registered (hash hashA, password secret),
logging in as alice with a wrong password and as unknown bob with the right
password yield the same 400 response. -/
theorem C5_login_failures_indistinguishable_witness :
    (("alice" : String) ≠ "" ∧ ("wrong" : String) ≠ "" ∧
      ("bob" : String) ≠ "" ∧ ("secret" : String) ≠ "" ∧
      (∀ u ∈ usersTest, u.username = "alice" →
        compareTest "wrong" u.password = false) ∧
      (∀ u ∈ usersTest, u.username = "bob" →
        compareTest "secret" u.password = false)) ∧
    login usersTest compareTest signTest "alice" "wrong" =
      .badRequest "Invalid username or password." ∧
    login usersTest compareTest signTest "alice" "wrong" =
      login usersTest compareTest signTest "bob" "secret" :=
  ⟨⟨by decide, by decide, by decide, by decide, by decide, by decide⟩,
    C5_login_failures_indistinguishable usersTest compareTest signTest
      "alice" "wrong" "bob" "secret" (by decide) (by decide) (by decide)
      (by decide) (by decide) (by decide)⟩

/-- Claim C6: a submit carrying a missing token, or a token the verifier
rejects (invalid or expired), answers 401 and leaves the message store and
the broadcast channel unchanged. -/
theorem C6_submit_unauthorized_unchanged (verify : String → Option AuthUser)
    (botFetch : String → Nat → FetchOutcome GeminiResult) (now : Nat)
    (token : Option String) (message : String) (st : ServerState)
    (h : token = none ∨ ∃ t, token = some t ∧ verify t = none) :
    handleSubmit verify botFetch now token message st = (401, st) := by
  rcases h with rfl | ⟨t, rfl, hv⟩
  · rfl
  · simp [handleSubmit, hv]

/-- Witness for C6: a rejected token on a non-empty state answers 401 and
changes nothing. -/
theorem C6_submit_unauthorized_unchanged_witness :
    ((some "bad-token" : Option String) = none ∨
      ∃ t, (some "bad-token" : Option String) = some t ∧
        verifyReject t = none) ∧
    handleSubmit verifyReject botFetchNetErr 5 (some "bad-token") "hello"
      ⟨[⟨some 7, "alice", "old", 1⟩], [⟨"alice", "old", 1⟩]⟩ =
      (401, ⟨[⟨some 7, "alice", "old", 1⟩], [⟨"alice", "old", 1⟩]⟩) :=
  ⟨Or.inr ⟨"bad-token", rfl, rfl⟩,
    C6_submit_unauthorized_unchanged verifyReject botFetchNetErr 5
      (some "bad-token") "hello"
      ⟨[⟨some 7, "alice", "old", 1⟩], [⟨"alice", "old", 1⟩]⟩
      (Or.inr ⟨"bad-token", rfl, rfl⟩)⟩

/-- Claim C4 (code evidence): at a concrete authenticated submit whose body
"@bot hello" triggers the bot, the handler answers 500 rather than 201 and
the bot message is neither stored nor broadcast (only the user message is):
the bot document is built with userId null while messageSchema declares
userId required, so its save is rejected, as the second conjunct shows. -/
theorem C4_bot_reply_save_rejected :
    handleSubmit verifyTest botFetchNetErr 10 (some "tok") "@bot hello"
      ⟨[], []⟩ =
      (500, ⟨[⟨some 7, "alice", "@bot hello", 10⟩],
        [⟨"alice", "@bot hello", 10⟩]⟩) ∧
    messageSchemaValid ⟨none, "Bot", apologyMessage, 10⟩ = false :=
  ⟨by decide, by decide⟩

/-- Claim C10: the submit operation is not atomic on error: for an
authenticated submit whose body triggers the bot, the bot reply processing
fails (its save is rejected because the bot document carries userId null
against a schema requiring it), and the handler answers 500 even though the
user message was already persisted and its new_message event already
emitted, so a 500 response does not imply that no state change or broadcast
occurred. -/
theorem C10_submit_500_after_prior_effects
    (verify : String → Option AuthUser)
    (botFetch : String → Nat → FetchOutcome GeminiResult) (now : Nat)
    (tok : String) (user : AuthUser) (message : String) (st : ServerState)
    (hv : verify tok = some user)
    (huid : user.userId.isSome = true)
    (hname : user.username ≠ "")
    (hmsg : message ≠ "")
    (hbot : jsStartsWith (jsToLower message) "@bot " = true) :
    handleSubmit verify botFetch now (some tok) message st =
      (500,
        ⟨st.messages ++ [⟨user.userId, user.username, message, now⟩],
         st.broadcasts ++ [⟨user.username, message, now⟩]⟩) := by
  have hvalid :
      messageSchemaValid ⟨user.userId, user.username, message, now⟩ = true := by
    simp [messageSchemaValid, huid, hname, hmsg]
  have hbotinvalid : ∀ resp : String,
      messageSchemaValid ⟨none, "Bot", resp, now⟩ = false := by
    intro resp
    simp [messageSchemaValid]
  simp [handleSubmit, hv, submitBody, hmsg, saveMessage, hvalid, hbotinvalid,
    emitNewMessage, hbot]

/-- Witness for C10: the concrete submit of "@bot hi" by alice answers 500
while leaving the user message persisted and broadcast. -/
theorem C10_submit_500_after_prior_effects_witness :
    (verifyTest "tok" = some ⟨some 7, "alice"⟩ ∧
      (AuthUser.mk (some 7) "alice").userId.isSome = true ∧
      (AuthUser.mk (some 7) "alice").username ≠ "" ∧
      ("@bot hi" : String) ≠ "" ∧
      jsStartsWith (jsToLower "@bot hi") "@bot " = true) ∧
    handleSubmit verifyTest botFetchNetErr 3 (some "tok") "@bot hi"
      ⟨[], []⟩ =
      (500, ⟨[] ++ [⟨some 7, "alice", "@bot hi", 3⟩],
        [] ++ [⟨"alice", "@bot hi", 3⟩]⟩) :=
  ⟨⟨by decide, by decide, by decide, by decide, by decide⟩,
    C10_submit_500_after_prior_effects verifyTest botFetchNetErr 3 "tok"
      ⟨some 7, "alice"⟩ "@bot hi" ⟨[], []⟩ (by decide) (by decide)
      (by decide) (by decide) (by decide)⟩

/-- Claim C7: the listing endpoint returns all persisted messages newest
first - a permutation of the store whose timestamps are sorted descending -
each reshaped to the client-facing fields name, message and timestamp (the
persisted date renamed); in particular a store holding m1 (earlier) then m2
(later) lists [m2, m1]. -/
theorem C7_listing_newest_first (st : ServerState) :
    (listMessages st).Pairwise (fun a b => b.timestamp ≤ a.timestamp) ∧
    (listMessages st).Perm
      (st.messages.map fun m => ⟨m.name, m.message, m.date⟩) ∧
    listMessages ⟨[⟨some 1, "ua", "m1", 1⟩, ⟨some 2, "ub", "m2", 2⟩], []⟩ =
      [⟨"ub", "m2", 2⟩, ⟨"ua", "m1", 1⟩] := by
  refine ⟨?_, ?_, by decide⟩
  · unfold listMessages
    rw [List.pairwise_map]
    exact List.sorted_insertionSort newerFirst st.messages
  · unfold listMessages
    exact (List.perm_insertionSort newerFirst st.messages).map _

/-- Claim C8: the presence registry is mutated only by the join and
disconnect events, after every such mutation the full current value set is
broadcast to all connections, and joining "A" and "B" then disconnecting "A"
ends with a final broadcast containing exactly "B". -/
theorem C8_presence_broadcast_after_mutation (m : List (Nat × String))
    (e : PresenceEvent) :
    (stepPresence m e).2 = broadcastUserList (stepPresence m e).1 ∧
    runPresence [] [.join 1 "A", .join 2 "B", .disconnect 1] =
      ([(2, "B")], [["A"], ["A", "B"], ["B"]]) :=
  ⟨rfl, by decide⟩

end NeuroGenX
